import Mathlib

/-!
Verification of the part-exchange HTTP handler, the replication helpers and the
bitXor implementation of this repository, as a shallow embedding in Lean 4.

Sources embedded:
* src/dbms/programs/server/InterserverIOHTTPHandler.cpp (checkAuthentication,
  processQuery, handleRequest);
* src/dbms/src/Storages/StorageReplicatedMergeTree.h (declarations and
  postcondition comments; missing implementation bodies are modelled from the
  specification, as marked on each such definition);
* src/src/Functions/bitXor.cpp (BitXorImpl::apply).
-/

namespace DB

/-- Log severities of the logger used by the handler (LOG_TRACE, LOG_INFO,
LOG_WARNING, LOG_ERROR). -/
inductive LogLevel
  | trace
  | info
  | warning
  | error
deriving DecidableEq, Repr

/-- One emitted log line: its severity and its text. -/
structure LogEvent where
  level : LogLevel
  text : String
deriving DecidableEq, Repr

/-- The observable state of a Poco HTTPServerResponse: status code, whether
chunked transfer encoding is enabled, whether the response has been sent, and
the bytes written to the output buffer (used_output.out). -/
structure HTTPResponse where
  status : Nat
  chunked : Bool
  sent : Bool
  body : String
deriving DecidableEq, Repr

/-- The observable state of a Poco HTTPServerRequest: HTTP version string, URI,
decoded query-string parameters (HTMLForm), request body, and the credentials
header when present, as the (scheme, info) pair that
HTTPServerRequest::getCredentials yields. -/
structure HTTPRequest where
  version : String
  uri : String
  params : List (String × String)
  body : String
  credentials : Option (String × String)
deriving DecidableEq, Repr

/-- Poco HTTPBasicCredentials decoded from the info part of the header. -/
structure BasicCredentials where
  username : String
  password : String
deriving DecidableEq, Repr

/-- The interserver credential store (BaseInterserverCredentials):
isValidUser maps a (user, password) pair to a (message, success) pair, exactly
the shape InterserverIOHTTPHandler::checkAuthentication returns. -/
structure BaseInterserverCredentials where
  isValidUser : String × String → String × Bool

/-- A DB::Exception as the handler observes it: its code, its message, and the
stack-trace text that getCurrentExceptionMessage(true) appends. -/
structure ExcInfo where
  code : Int
  msg : String
  stacktrace : String
deriving DecidableEq, Repr

/-- How the call into the endpoint (and hence processQuery) finishes: normal
return, a thrown DB::Exception, or any other thrown object (the catch (...)
case). -/
inductive ProcessOutcome
  | ok : ProcessOutcome
  | exc : ExcInfo → ProcessOutcome
  | unknownExc : String → ProcessOutcome
deriving DecidableEq, Repr

/-- What one call to the interserver endpoint does: the bytes it writes to the
buffer it was handed, the response state it leaves behind (it may set a status
and send), and how it finishes. The endpoint implementations
(DataPartsExchange and the like) are not part of the handler. -/
structure EndpointResult where
  written : String
  resp : HTTPResponse
  outcome : ProcessOutcome

/-- An interserver endpoint, looked up by name from the InterserverIOHandler
registry: a function of the query parameters, the request body and the current
response state. -/
structure Endpoint where
  run : List (String × String) → String → HTTPResponse → EndpointResult

/-- The write path processQuery hands the endpoint: either the raw output
buffer, or the same buffer wrapped in a CompressedWriteBuffer. The payload is
the endpoint's written bytes. -/
inductive BodyStream
  | direct : String → BodyStream
  | blockCompressed : String → BodyStream
deriving DecidableEq, Repr

/-- Whether the stream wraps the endpoint output in block compression. -/
def BodyStream.isCompressed : BodyStream → Bool
  | BodyStream.direct _ => false
  | BodyStream.blockCompressed _ => true

/-- Server configuration (Poco AbstractConfiguration): a finite key/value map
with getUInt lookup-with-default. -/
structure ServerConfig where
  entries : List (String × Nat)

/-- config.getUInt(key, default): the configured value when the key is
present, the default otherwise. -/
def ServerConfig.getUInt (c : ServerConfig) (key : String) (dflt : Nat) : Nat :=
  match c.entries.lookup key with
  | some v => v
  | none => dflt

namespace ErrorCodes

/-- ErrorCodes::ABORTED (extern const in the source; the numeric value is the
registry's, only its distinctness matters here). -/
def ABORTED : Int := 236

/-- ErrorCodes::TOO_MANY_SIMULTANEOUS_QUERIES (extern const in the source). -/
def TOO_MANY_SIMULTANEOUS_QUERIES : Int := 202

end ErrorCodes

/-- getCurrentExceptionMessage(with_stacktrace): the exception text, with the
stack trace appended when with_stacktrace is set. -/
def getCurrentExceptionMessage (with_stacktrace : Bool) (e : ExcInfo) : String :=
  if with_stacktrace then e.msg ++ e.stacktrace else e.msg

/-- InterserverIOHTTPHandler::checkAuthentication: with no credentials on the
request, the empty (user, password) pair is evaluated against the interserver
credential store; with a credential scheme other than Basic, a fixed failure
message; otherwise the decoded Basic credentials are evaluated against the
store. `decodeBasic` stands for Poco HTTPBasicCredentials(info). -/
def checkAuthentication (creds : BaseInterserverCredentials)
    (decodeBasic : String → BasicCredentials) (request : HTTPRequest) :
    String × Bool :=
  match request.credentials with
  | none => creds.isValidUser ("", "")
  | some (scheme, info) =>
    if scheme != "Basic" then
      ("Server requires HTTP Basic authentification but client provides another method",
        false)
    else
      let credentials := decodeBasic info
      creds.isValidUser (credentials.username, credentials.password)

/-- Modelled from the spec: HTMLForm (dbms/src/Common/HTMLForm.h, not under
src/) reads the query-string parameters named by the wire contract (endpoint,
part, compress); a parameter absent from the query string reads as the empty
string, which compares unequal to "true". -/
def HTMLForm.get (params : List (String × String)) (key : String) : String :=
  match params.lookup key with
  | some v => v
  | none => ""

/-- What one call of InterserverIOHTTPHandler::processQuery produces: the
write path handed to the endpoint, the response state after the endpoint ran,
how the endpoint finished, and the log lines processQuery itself emitted. -/
structure PQResult where
  stream : BodyStream
  resp : HTTPResponse
  outcome : ProcessOutcome
  logs : List LogEvent

/-- InterserverIOHTTPHandler::processQuery: reads the endpoint name and the
compress flag from the query parameters, looks the endpoint up, and hands it
either the raw output buffer or a CompressedWriteBuffer wrapping it, exactly
when the compress parameter equals "true". -/
def processQuery (getEndpoint : String → Endpoint) (request : HTTPRequest)
    (response : HTTPResponse) : PQResult :=
  let params := request.params
  let endpoint_name := HTMLForm.get params "endpoint"
  let compress := HTMLForm.get params "compress" == "true"
  let endpoint := getEndpoint endpoint_name
  let r := endpoint.run params request.body response
  { stream :=
      if compress then BodyStream.blockCompressed r.written
      else BodyStream.direct r.written,
    resp := r.resp,
    outcome := r.outcome,
    logs := [⟨LogLevel.trace, "Request URI: " ++ request.uri⟩] }

/-- The response state handleRequest builds before the try block: status not
yet touched (200), chunked transfer encoding enabled exactly for HTTP/1.1,
nothing sent, nothing written. -/
def initialResponse (request : HTTPRequest) : HTTPResponse :=
  { status := 200,
    chunked := request.version == "HTTP/1.1",
    sent := false,
    body := "" }

/-- Everything observable about one handleRequest call: the final response
state, the keep-alive timeout the response write buffer was constructed with,
the handler's log lines in order, and whether processQuery was invoked. -/
structure HandleResult where
  response : HTTPResponse
  keepAliveTimeout : Nat
  logs : List LogEvent
  processQueryCalled : Bool

/-- InterserverIOHTTPHandler::handleRequest: enables chunked transfer for
HTTP/1.1, builds the write buffer with config.getUInt("keep_alive_timeout", 10),
then authenticates; on success it runs processQuery; a thrown
TOO_MANY_SIMULTANEOUS_QUERIES returns at once; any other DB::Exception sets
status 500, writes getCurrentExceptionMessage (with stack trace unless the
code is ABORTED) when the response is unsent, and logs it at ERROR (or at INFO
for ABORTED); any other thrown object sets 500, writes the message and logs at
ERROR; failed authentication sets 401, writes the store's message when the
response is unsent, and logs a warning. -/
def handleRequest (config : ServerConfig) (creds : BaseInterserverCredentials)
    (decodeBasic : String → BasicCredentials) (getEndpoint : String → Endpoint)
    (request : HTTPRequest) : HandleResult :=
  let response := initialResponse request
  let keep_alive_timeout := config.getUInt "keep_alive_timeout" 10
  let auth := checkAuthentication creds decodeBasic request
  if auth.2 then
    let pq := processQuery getEndpoint request response
    match pq.outcome with
    | ProcessOutcome.ok =>
      { response := pq.resp,
        keepAliveTimeout := keep_alive_timeout,
        logs := pq.logs ++ [⟨LogLevel.info, "Done processing query"⟩],
        processQueryCalled := true }
    | ProcessOutcome.exc e =>
      if e.code == ErrorCodes.TOO_MANY_SIMULTANEOUS_QUERIES then
        { response := pq.resp,
          keepAliveTimeout := keep_alive_timeout,
          logs := pq.logs,
          processQueryCalled := true }
      else
        let is_real_error := e.code != ErrorCodes.ABORTED
        let message := getCurrentExceptionMessage is_real_error e
        let r1 : HTTPResponse := { pq.resp with status := 500 }
        let r2 := if r1.sent then r1 else { r1 with body := r1.body ++ message }
        { response := r2,
          keepAliveTimeout := keep_alive_timeout,
          logs := pq.logs ++
            [⟨if is_real_error then LogLevel.error else LogLevel.info, message⟩],
          processQueryCalled := true }
    | ProcessOutcome.unknownExc m =>
      let r1 : HTTPResponse := { pq.resp with status := 500 }
      let r2 := if r1.sent then r1 else { r1 with body := r1.body ++ m }
      { response := r2,
        keepAliveTimeout := keep_alive_timeout,
        logs := pq.logs ++ [⟨LogLevel.error, m⟩],
        processQueryCalled := true }
  else
    let r1 : HTTPResponse := { response with status := 401 }
    let r2 := if r1.sent then r1 else { r1 with body := r1.body ++ auth.1 }
    { response := r2,
      keepAliveTimeout := keep_alive_timeout,
      logs := [⟨LogLevel.warning,
        "Query processing failed request: " ++ request.uri ++ " authentification failed"⟩],
      processQueryCalled := false }

/-! Replication subsystem (C7, C8, C9). src/ holds only the header
src/dbms/src/Storages/StorageReplicatedMergeTree.h (declarations and their
postcondition comments); the implementation bodies live in repository files
that are not under src/, so the definitions below are modelled from the
specification, each marked so. -/

/-- The typed actions of the shared log (LogEntry::Type). -/
inductive LogEntryType
  | GET
  | MERGE
  | MUTATE
  | DROP_RANGE
  | CLEAR_COLUMN
  | REPLACE_RANGE
deriving DecidableEq, Repr

/-- A sequential ephemeral child under /leader_election/: the replica that
created it and its sequential number. -/
structure ElectionNode where
  replica : String
  seq : Nat
deriving DecidableEq, Repr

/-- The election child with the smallest sequential number, when any exists. -/
def minSeqNode : List ElectionNode → Option ElectionNode
  | [] => none
  | n :: rest =>
    match minSeqNode rest with
    | none => some n
    | some m => if n.seq ≤ m.seq then some n else some m

/-- Modelled from the spec: leadership is the smallest sequential ephemeral
child under /leader_election/ (LeaderElection.h is not under src/); exactly
the smallest-named holder is leader. -/
def isLeader (nodes : List ElectionNode) (r : String) : Bool :=
  match minSeqNode nodes with
  | some n => n.replica == r
  | none => false

/-- The per-replica election state handleRequest of exitLeaderElection acts
on: the is_leader flag (StorageReplicatedMergeTree::is_leader), this
replica's election node if created, and whether the coordinator session is
expired. -/
structure LeaderState where
  is_leader : Bool
  electionNode : Option Nat
  sessionExpired : Bool
deriving DecidableEq, Repr

/-- Modelled from the spec and the header's postcondition comment
(StorageReplicatedMergeTree.h lines 422-425): after exitLeaderElection,
is_leader is false and the leader_election node in ZK is either deleted, or
the session is marked expired (an expired session cannot delete, but its
ephemerals are gone with it). -/
def exitLeaderElection (s : LeaderState) : LeaderState :=
  { s with
    is_leader := false,
    electionNode := if s.sessionExpired then s.electionNode else none }

/-- Modelled from the spec: the leader runs the merge selector and writes
MERGE entries to the shared log; non-leaders never write MERGE entries
(StorageReplicatedMergeTree::mergeSelectingTask is declared in the header,
its body is not under src/). `chosen` is what the merge heuristic picked. -/
def mergeSelectingTask (s : LeaderState) (chosen : List LogEntryType)
    (log : List LogEntryType) : List LogEntryType :=
  if s.is_leader then log ++ chosen else log

/-- The replica-local queue state pullLogsToQueue acts on: the log pointer
(highest log index mirrored) and the queue, each entry keyed by the sequential
name (index) of the log entry it mirrors. -/
structure QueueState where
  logPointer : Nat
  queue : List (Nat × LogEntryType)
deriving DecidableEq, Repr

/-- Modelled from the spec: pullLogsToQueue reads the log children at indices
at or past log_pointer, skips entries already mirrored into the queue
(duplicates from a partial failure are detected; the authoritative key is the
sequential name), appends the rest to the queue and advances log_pointer
(ReplicatedMergeTreeQueue::pullLogsToQueue is only declared via
queueUpdatingTask in the header; its body is not under src/). -/
def pullLogsToQueue (log : List LogEntryType) (s : QueueState) : QueueState :=
  let fresh := log.enum.filter fun p =>
    decide (s.logPointer ≤ p.1) && !(s.queue.any fun q => q.1 == p.1)
  { logPointer := max s.logPointer log.length,
    queue := s.queue ++ fresh }

/-- The background activities of one replicated table, as the header lists
them. -/
inductive BgThread
  | queue_updater
  | mutations_updater
  | merge_selector
  | mutations_finalizer
  | queue_executor
  | cleanup
  | alter_watcher
  | part_check
  | restarting
deriving DecidableEq, Repr

/-- Modelled from the spec and the header's comment on partial_shutdown_called
("Do I need to complete background threads (except restarting_thread)?"):
a partial shutdown stops every background thread except the session/restart
thread. -/
def stoppedByPartialShutdown (t : BgThread) : Bool :=
  t != BgThread.restarting

/-- Modelled from the spec: the threads still running after the
partial_shutdown_called signal is raised. -/
def partialShutdown (running : List BgThread) : List BgThread :=
  running.filter fun t => !stoppedByPartialShutdown t

/-- Modelled from the spec: a full table shutdown terminates every background
thread, the session/restart thread included. -/
def fullShutdown (_running : List BgThread) : List BgThread := []

/-! BitXorImpl (C10), from src/src/Functions/bitXor.cpp. Machine integers are
bit patterns: a value of a C++ integer type of width w is a Nat below 2 ^ w,
interpreted two's-complement when the type is signed. -/

/-- A C++ integer type: its width in bits and its signedness. -/
structure CInt where
  width : Nat
  signed : Bool
deriving DecidableEq, Repr

/-- The mathematical integer a bit pattern denotes in type `t`: the pattern
itself, or pattern minus 2 ^ width when the type is signed and the top bit is
set (two's complement). -/
def toInt (t : CInt) (a : Nat) : Int :=
  if t.signed && a.testBit (t.width - 1) then (a : Int) - 2 ^ t.width
  else (a : Int)

/-- The bit pattern of type `t` denoting integer `x`: reduction modulo
2 ^ width, the semantics of C++ conversion to a two's-complement integer
type. -/
def ofInt (t : CInt) (x : Int) : Nat :=
  (x % ((2 : Int) ^ t.width)).toNat

/-- static_cast from integer type `s` to integer type `d`: read the pattern's
value in `s`, reduce it into `d`. -/
def staticCast (s d : CInt) (a : Nat) : Nat :=
  ofInt d (toInt s a)

/-- Modelled from the spec: NumberTraits::ResultOfBit (NumberTraits.h is not
under src/) — for integer arguments the result type has the larger of the two
widths and is signed when either argument is. -/
def NumberTraits.ResultOfBit (ta tb : CInt) : CInt :=
  ⟨max ta.width tb.width, ta.signed || tb.signed⟩

/-- BitXorImpl::apply(a, b) = static_cast<Result>(a) ^ static_cast<Result>(b)
(both branches of the need_uint8_cast constexpr compute this same formula:
the uint8_t detour of the big-integer branch is a cast between types of
identical width and signedness). `tr` is the Result template parameter, which
defaults to NumberTraits::ResultOfBit. -/
def BitXorImpl.apply (ta tb tr : CInt) (a b : Nat) : Nat :=
  staticCast ta tr a ^^^ staticCast tb tr b

/-! Concrete inputs for witnesses and counterexamples. -/

/-- A decoder for demo Basic credentials: the info is the user, no password. -/
def demoDecode : String → BasicCredentials := fun info => ⟨info, ""⟩

/-- A credential store accepting every pair. -/
def acceptAllCreds : BaseInterserverCredentials := ⟨fun _ => ("", true)⟩

/-- A credential store rejecting every pair with a message. -/
def rejectAllCreds : BaseInterserverCredentials :=
  ⟨fun _ => ("Incorrect user or password", false)⟩

/-- A credential store accepting exactly the empty pair (the back-compat
empty-credential mode). -/
def emptyOnlyCreds : BaseInterserverCredentials :=
  ⟨fun p => if p = ("", "") then ("", true)
    else ("Incorrect user or password", false)⟩

/-- An empty configuration: every key absent. -/
def demoConfig : ServerConfig := ⟨[]⟩

/-- A demo part-exchange request without credentials. -/
def demoRequest : HTTPRequest :=
  { version := "HTTP/1.1",
    uri := "/?endpoint=DataPartsExchange",
    params := [("endpoint", "DataPartsExchange"), ("compress", "false")],
    body := "",
    credentials := none }

/-- An endpoint that raises TOO_MANY_SIMULTANEOUS_QUERIES without touching
the response. -/
def tooManyEndpoint : Endpoint :=
  ⟨fun _ _ resp =>
    ⟨"", resp,
      ProcessOutcome.exc
        ⟨ErrorCodes.TOO_MANY_SIMULTANEOUS_QUERIES,
          "Too many concurrent fetches, try again later", ""⟩⟩⟩

/-- An endpoint that, per the spec, sets status 503 and sends the response
before raising TOO_MANY_SIMULTANEOUS_QUERIES. -/
def tooManyEndpoint503 : Endpoint :=
  ⟨fun _ _ resp =>
    ⟨"", { resp with status := 503, sent := true },
      ProcessOutcome.exc
        ⟨ErrorCodes.TOO_MANY_SIMULTANEOUS_QUERIES,
          "Too many concurrent fetches, try again later", ""⟩⟩⟩

/-- An endpoint that raises ABORTED (send cancelled by shutdown or drop). -/
def abortedEndpoint : Endpoint :=
  ⟨fun _ _ resp =>
    ⟨"", resp,
      ProcessOutcome.exc
        ⟨ErrorCodes.ABORTED,
          "Transferring part to replica was cancelled", ""⟩⟩⟩

/-- An endpoint that completes normally, writing a framed part body. -/
def okEndpoint : Endpoint :=
  ⟨fun _ _ resp => ⟨"part-bytes", resp, ProcessOutcome.ok⟩⟩

/-! Theorems. -/

/-- C4: a request carrying no credentials makes checkAuthentication evaluate
the empty (user, password) pair against the interserver credential store and
return exactly the store's verdict; a request whose authentication scheme is
present but not Basic makes checkAuthentication fail with a message,
regardless of the credential store's contents. -/
theorem checkAuthentication_empty_and_non_basic
    (creds : BaseInterserverCredentials) (decodeBasic : String → BasicCredentials)
    (request : HTTPRequest) (scheme info : String) :
    (request.credentials = none →
      checkAuthentication creds decodeBasic request = creds.isValidUser ("", "")) ∧
    (request.credentials = some (scheme, info) → scheme ≠ "Basic" →
      (checkAuthentication creds decodeBasic request).2 = false ∧
      (checkAuthentication creds decodeBasic request).1 =
        "Server requires HTTP Basic authentification but client provides another method") := by
  constructor
  · intro h
    simp [checkAuthentication, h]
  · intro h hs
    simp [checkAuthentication, h, hs]

/-- Witness for C4 at a concrete credential store and request. -/
theorem checkAuthentication_empty_and_non_basic_witness :
    (demoRequest.credentials = none →
      checkAuthentication emptyOnlyCreds demoDecode demoRequest =
        emptyOnlyCreds.isValidUser ("", "")) ∧
    (demoRequest.credentials = some ("Digest", "abc") → "Digest" ≠ "Basic" →
      (checkAuthentication emptyOnlyCreds demoDecode demoRequest).2 = false ∧
      (checkAuthentication emptyOnlyCreds demoDecode demoRequest).1 =
        "Server requires HTTP Basic authentification but client provides another method") :=
  checkAuthentication_empty_and_non_basic emptyOnlyCreds demoDecode demoRequest "Digest" "abc"

/-- C5: processQuery wraps the response body in a block-compressed stream if
and only if the query-string parameter compress equals the exact string
"true"; for any other value, or when the parameter is absent (defaulting to
the empty string), the endpoint writes directly to the uncompressed output
buffer. -/
theorem processQuery_compress_iff
    (getEndpoint : String → Endpoint) (request : HTTPRequest) (response : HTTPResponse) :
    ((processQuery getEndpoint request response).stream.isCompressed = true ↔
      request.params.lookup "compress" = some "true") ∧
    ((processQuery getEndpoint request response).stream =
        BodyStream.direct
          ((getEndpoint (HTMLForm.get request.params "endpoint")).run
            request.params request.body response).written ∨
      (processQuery getEndpoint request response).stream =
        BodyStream.blockCompressed
          ((getEndpoint (HTMLForm.get request.params "endpoint")).run
            request.params request.body response).written) := by
  constructor
  · unfold processQuery HTMLForm.get
    cases h : request.params.lookup "compress" with
    | none => simp [h, BodyStream.isCompressed]
    | some v =>
      by_cases hv : v = "true" <;> simp [h, hv, BodyStream.isCompressed]
  · unfold processQuery
    by_cases hc : (HTMLForm.get request.params "compress" == "true") = true <;>
      simp [hc]

/-- C6: handleRequest enables chunked transfer encoding on the response
exactly when the request's HTTP version is 1.1, and constructs the response
write buffer with the configured keep_alive_timeout value, which defaults to
10 when the configuration key is absent. -/
theorem handleRequest_chunked_and_keepalive
    (config : ServerConfig) (creds : BaseInterserverCredentials)
    (decodeBasic : String → BasicCredentials) (getEndpoint : String → Endpoint)
    (request : HTTPRequest) :
    ((initialResponse request).chunked = true ↔ request.version = "HTTP/1.1") ∧
    (handleRequest config creds decodeBasic getEndpoint request).keepAliveTimeout =
      config.getUInt "keep_alive_timeout" 10 ∧
    config.getUInt "keep_alive_timeout" 10 =
      (config.entries.lookup "keep_alive_timeout").getD 10 := by
  refine ⟨?_, ?_, ?_⟩
  · simp [initialResponse]
  · simp only [handleRequest]
    repeat' split
    all_goals rfl
  · unfold ServerConfig.getUInt
    cases h : config.entries.lookup "keep_alive_timeout" <;> simp [h]

/-- C2: when checkAuthentication fails, handleRequest sets HTTP status 401,
writes the failure message to the response body (the response has not been
sent at that point), and does not invoke the endpoint's processQuery. -/
theorem handleRequest_auth_failure
    (config : ServerConfig) (creds : BaseInterserverCredentials)
    (decodeBasic : String → BasicCredentials) (getEndpoint : String → Endpoint)
    (request : HTTPRequest)
    (h : (checkAuthentication creds decodeBasic request).2 = false) :
    (handleRequest config creds decodeBasic getEndpoint request).response.status = 401 ∧
    (handleRequest config creds decodeBasic getEndpoint request).response.body =
      (checkAuthentication creds decodeBasic request).1 ∧
    (handleRequest config creds decodeBasic getEndpoint request).processQueryCalled = false := by
  simp [handleRequest, h, initialResponse]

/-- Witness for C2 at a rejecting credential store. -/
theorem handleRequest_auth_failure_witness :
    (handleRequest demoConfig rejectAllCreds demoDecode (fun _ => okEndpoint)
      demoRequest).response.status = 401 ∧
    (handleRequest demoConfig rejectAllCreds demoDecode (fun _ => okEndpoint)
      demoRequest).response.body =
      (checkAuthentication rejectAllCreds demoDecode demoRequest).1 ∧
    (handleRequest demoConfig rejectAllCreds demoDecode (fun _ => okEndpoint)
      demoRequest).processQueryCalled = false :=
  handleRequest_auth_failure demoConfig rejectAllCreds demoDecode (fun _ => okEndpoint)
    demoRequest rfl


/-- Helper: the log lines processQuery itself emits (one TRACE line). -/
theorem processQuery_logs (getEndpoint : String → Endpoint) (request : HTTPRequest)
    (response : HTTPResponse) :
    (processQuery getEndpoint request response).logs =
      [⟨LogLevel.trace, "Request URI: " ++ request.uri⟩] := rfl

/-- C3: every exception thrown during query processing other than
TOO_MANY_SIMULTANEOUS_QUERIES makes handleRequest set HTTP status 500 and
write a text error message to the body when the response is not already sent;
an exception whose code is ABORTED is logged at INFO and never at ERROR,
while every other exception (a DB::Exception with another code, or an unknown
thrown object) is logged at ERROR. -/
theorem handleRequest_exception_handling
    (config : ServerConfig) (creds : BaseInterserverCredentials)
    (decodeBasic : String → BasicCredentials) (getEndpoint : String → Endpoint)
    (request : HTTPRequest)
    (hauth : (checkAuthentication creds decodeBasic request).2 = true) :
    (∀ e : ExcInfo,
      (processQuery getEndpoint request (initialResponse request)).outcome =
        ProcessOutcome.exc e →
      e.code ≠ ErrorCodes.TOO_MANY_SIMULTANEOUS_QUERIES →
      ((handleRequest config creds decodeBasic getEndpoint request).response.status = 500 ∧
       ((processQuery getEndpoint request (initialResponse request)).resp.sent = false →
         (handleRequest config creds decodeBasic getEndpoint request).response.body =
           (processQuery getEndpoint request (initialResponse request)).resp.body ++
             getCurrentExceptionMessage (e.code != ErrorCodes.ABORTED) e) ∧
       (e.code = ErrorCodes.ABORTED →
         (⟨LogLevel.info, getCurrentExceptionMessage false e⟩ : LogEvent) ∈
           (handleRequest config creds decodeBasic getEndpoint request).logs ∧
         ∀ ev ∈ (handleRequest config creds decodeBasic getEndpoint request).logs,
           ev.level ≠ LogLevel.error) ∧
       (e.code ≠ ErrorCodes.ABORTED →
         (⟨LogLevel.error, getCurrentExceptionMessage true e⟩ : LogEvent) ∈
           (handleRequest config creds decodeBasic getEndpoint request).logs))) ∧
    (∀ m : String,
      (processQuery getEndpoint request (initialResponse request)).outcome =
        ProcessOutcome.unknownExc m →
      ((handleRequest config creds decodeBasic getEndpoint request).response.status = 500 ∧
       ((processQuery getEndpoint request (initialResponse request)).resp.sent = false →
         (handleRequest config creds decodeBasic getEndpoint request).response.body =
           (processQuery getEndpoint request (initialResponse request)).resp.body ++ m) ∧
       (⟨LogLevel.error, m⟩ : LogEvent) ∈
         (handleRequest config creds decodeBasic getEndpoint request).logs)) := by
  constructor
  · intro e hout hcode
    have hbeq : (e.code == ErrorCodes.TOO_MANY_SIMULTANEOUS_QUERIES) = false := by
      simp [hcode]
    by_cases hab : e.code = ErrorCodes.ABORTED
    · have hbne : (e.code != ErrorCodes.ABORTED) = false := by simp [hab]
      refine ⟨?_, ?_, ?_, ?_⟩
      · simp [handleRequest, hauth, hout, hbeq]
        split <;> rfl
      · intro hsent
        simp [handleRequest, hauth, hout, hbeq, hbne, hsent]
      · intro _
        constructor
        · simp [handleRequest, hauth, hout, hbeq, hbne, processQuery_logs]
        · intro ev hev
          simp [handleRequest, hauth, hout, hbeq, hbne, processQuery_logs] at hev
          rcases hev with h1 | h2
          · rw [h1]; simp
          · rw [h2]; simp
      · intro hne; exact absurd hab hne
    · have hbne : (e.code != ErrorCodes.ABORTED) = true := by simp [hab]
      refine ⟨?_, ?_, ?_, ?_⟩
      · simp [handleRequest, hauth, hout, hbeq]
        split <;> rfl
      · intro hsent
        simp [handleRequest, hauth, hout, hbeq, hbne, hsent]
      · intro h; exact absurd h hab
      · intro _
        simp [handleRequest, hauth, hout, hbeq, hbne, processQuery_logs]
  · intro m hout
    refine ⟨?_, ?_, ?_⟩
    · simp [handleRequest, hauth, hout]
      split <;> rfl
    · intro hsent
      simp [handleRequest, hauth, hout, hsent]
    · simp [handleRequest, hauth, hout, processQuery_logs]


/-- Witness for C3 at an endpoint raising ABORTED. -/
theorem handleRequest_exception_handling_witness :
    (handleRequest demoConfig acceptAllCreds demoDecode (fun _ => abortedEndpoint)
      demoRequest).response.status = 500 ∧
    ((processQuery (fun _ => abortedEndpoint) demoRequest
        (initialResponse demoRequest)).resp.sent = false →
      (handleRequest demoConfig acceptAllCreds demoDecode (fun _ => abortedEndpoint)
        demoRequest).response.body =
        (processQuery (fun _ => abortedEndpoint) demoRequest
          (initialResponse demoRequest)).resp.body ++
          getCurrentExceptionMessage
            ((⟨ErrorCodes.ABORTED, "Transferring part to replica was cancelled", ""⟩ :
              ExcInfo).code != ErrorCodes.ABORTED)
            ⟨ErrorCodes.ABORTED, "Transferring part to replica was cancelled", ""⟩) ∧
    ((⟨ErrorCodes.ABORTED, "Transferring part to replica was cancelled", ""⟩ :
        ExcInfo).code = ErrorCodes.ABORTED →
      (⟨LogLevel.info,
        getCurrentExceptionMessage false
          ⟨ErrorCodes.ABORTED, "Transferring part to replica was cancelled", ""⟩⟩ :
          LogEvent) ∈
        (handleRequest demoConfig acceptAllCreds demoDecode (fun _ => abortedEndpoint)
          demoRequest).logs ∧
      ∀ ev ∈ (handleRequest demoConfig acceptAllCreds demoDecode (fun _ => abortedEndpoint)
          demoRequest).logs, ev.level ≠ LogLevel.error) ∧
    ((⟨ErrorCodes.ABORTED, "Transferring part to replica was cancelled", ""⟩ :
        ExcInfo).code ≠ ErrorCodes.ABORTED →
      (⟨LogLevel.error,
        getCurrentExceptionMessage true
          ⟨ErrorCodes.ABORTED, "Transferring part to replica was cancelled", ""⟩⟩ :
          LogEvent) ∈
        (handleRequest demoConfig acceptAllCreds demoDecode (fun _ => abortedEndpoint)
          demoRequest).logs) :=
  (handleRequest_exception_handling demoConfig acceptAllCreds demoDecode
      (fun _ => abortedEndpoint) demoRequest rfl).1
    ⟨ErrorCodes.ABORTED, "Transferring part to replica was cancelled", ""⟩ rfl (by decide)

/-- C1, counterexample: at a concrete request whose processing raises
TOO_MANY_SIMULTANEOUS_QUERIES (the endpoint throws without touching the
response), handleRequest leaves the response status at 200 — it does not set
503. -/
theorem handleRequest_tooMany_counterexample :
    (processQuery (fun _ => tooManyEndpoint) demoRequest
      (initialResponse demoRequest)).outcome =
      ProcessOutcome.exc
        ⟨ErrorCodes.TOO_MANY_SIMULTANEOUS_QUERIES,
          "Too many concurrent fetches, try again later", ""⟩ ∧
    (handleRequest demoConfig acceptAllCreds demoDecode (fun _ => tooManyEndpoint)
      demoRequest).response.status = 200 ∧
    (handleRequest demoConfig acceptAllCreds demoDecode (fun _ => tooManyEndpoint)
      demoRequest).response.status ≠ 503 := by
  refine ⟨rfl, rfl, by decide⟩

/-- C1, amended: when processing raises TOO_MANY_SIMULTANEOUS_QUERIES,
handleRequest returns at once, leaving the response exactly as the endpoint
left it — in particular, when the endpoint set status 503 before throwing (as
the spec's part-exchange service does), the final response status is 503;
handleRequest itself sets no status in this case. -/
theorem handleRequest_tooMany_preserves_endpoint_response
    (config : ServerConfig) (creds : BaseInterserverCredentials)
    (decodeBasic : String → BasicCredentials) (getEndpoint : String → Endpoint)
    (request : HTTPRequest) (e : ExcInfo)
    (hauth : (checkAuthentication creds decodeBasic request).2 = true)
    (hout : (processQuery getEndpoint request (initialResponse request)).outcome =
      ProcessOutcome.exc e)
    (hcode : e.code = ErrorCodes.TOO_MANY_SIMULTANEOUS_QUERIES) :
    (handleRequest config creds decodeBasic getEndpoint request).response =
      (processQuery getEndpoint request (initialResponse request)).resp ∧
    ((processQuery getEndpoint request (initialResponse request)).resp.status = 503 →
      (handleRequest config creds decodeBasic getEndpoint request).response.status = 503) := by
  have h1 : (handleRequest config creds decodeBasic getEndpoint request).response =
      (processQuery getEndpoint request (initialResponse request)).resp := by
    simp [handleRequest, hauth, hout, hcode]
  exact ⟨h1, fun h => by rw [h1, h]⟩

/-- Witness for the amended C1 at an endpoint that sets 503 and throws. -/
theorem handleRequest_tooMany_witness :
    (handleRequest demoConfig acceptAllCreds demoDecode (fun _ => tooManyEndpoint503)
      demoRequest).response =
      (processQuery (fun _ => tooManyEndpoint503) demoRequest
        (initialResponse demoRequest)).resp ∧
    ((processQuery (fun _ => tooManyEndpoint503) demoRequest
        (initialResponse demoRequest)).resp.status = 503 →
      (handleRequest demoConfig acceptAllCreds demoDecode (fun _ => tooManyEndpoint503)
        demoRequest).response.status = 503) :=
  handleRequest_tooMany_preserves_endpoint_response demoConfig acceptAllCreds demoDecode
    (fun _ => tooManyEndpoint503) demoRequest
    ⟨ErrorCodes.TOO_MANY_SIMULTANEOUS_QUERIES,
      "Too many concurrent fetches, try again later", ""⟩ rfl rfl rfl


/-- Helper: only the empty election-node list has no minimum. -/
theorem minSeqNode_eq_none {l : List ElectionNode} (h : minSeqNode l = none) : l = [] := by
  cases l with
  | nil => rfl
  | cons a rest =>
    simp only [minSeqNode] at h
    cases hm : minSeqNode rest with
    | none => rw [hm] at h; simp at h
    | some m =>
      rw [hm] at h
      by_cases hle : a.seq ≤ m.seq <;> simp [hle] at h

/-- Helper: the minimum election node is one of the list's nodes. -/
theorem minSeqNode_mem : ∀ {l : List ElectionNode} {n : ElectionNode},
    minSeqNode l = some n → n ∈ l := by
  intro l
  induction l with
  | nil => intro n h; simp [minSeqNode] at h
  | cons a rest ih =>
    intro n h
    simp only [minSeqNode] at h
    cases hm : minSeqNode rest with
    | none =>
      rw [hm] at h
      simp only [Option.some.injEq] at h
      simp [← h]
    | some m =>
      rw [hm] at h
      by_cases hle : a.seq ≤ m.seq
      · simp only [hle, if_true, Option.some.injEq] at h
        simp [← h]
      · simp only [hle, if_false, Option.some.injEq] at h
        subst h
        exact List.mem_cons_of_mem a (ih hm)

/-- Helper: the minimum election node has the smallest sequential number. -/
theorem minSeqNode_min : ∀ {l : List ElectionNode} {n : ElectionNode},
    minSeqNode l = some n → ∀ m ∈ l, n.seq ≤ m.seq := by
  intro l
  induction l with
  | nil => intro n h; simp [minSeqNode] at h
  | cons a rest ih =>
    intro n h m hm'
    simp only [minSeqNode] at h
    cases hmin : minSeqNode rest with
    | none =>
      rw [hmin] at h
      simp only [Option.some.injEq] at h
      have hrest : rest = [] := minSeqNode_eq_none hmin
      subst hrest
      rcases List.mem_cons.mp hm' with rfl | hmem
      · rw [← h]
      · simp at hmem
    | some mmin =>
      rw [hmin] at h
      by_cases hle : a.seq ≤ mmin.seq
      · simp only [hle, if_true, Option.some.injEq] at h
        subst h
        rcases List.mem_cons.mp hm' with rfl | hmem
        · exact Nat.le_refl _
        · exact Nat.le_trans hle (ih hmin m hmem)
      · simp only [hle, if_false, Option.some.injEq] at h
        subst h
        rcases List.mem_cons.mp hm' with rfl | hmem
        · exact Nat.le_of_lt (Nat.lt_of_not_le hle)
        · exact ih hmin m hmem

/-- C7: at most one replica per table is leader, namely the holder of the
smallest-named sequential ephemeral child under /leader_election/; a replica
that is not leader never writes a MERGE entry to the shared log; and after
exitLeaderElection, is_leader is false and the replica's election node is
either deleted or its session is expired. -/
theorem leader_election_invariants
    (nodes : List ElectionNode) (r1 r2 : String) (s : LeaderState)
    (chosen log : List LogEntryType) :
    (isLeader nodes r1 = true → isLeader nodes r2 = true → r1 = r2) ∧
    (isLeader nodes r1 = true →
      ∃ n, n ∈ nodes ∧ n.replica = r1 ∧ ∀ m ∈ nodes, n.seq ≤ m.seq) ∧
    (s.is_leader = false → mergeSelectingTask s chosen log = log) ∧
    (exitLeaderElection s).is_leader = false ∧
    ((exitLeaderElection s).electionNode = none ∨
      (exitLeaderElection s).sessionExpired = true) := by
  refine ⟨?_, ?_, ?_, ?_, ?_⟩
  · intro h1 h2
    unfold isLeader at h1 h2
    cases hm : minSeqNode nodes with
    | none => rw [hm] at h1; simp at h1
    | some n =>
      rw [hm] at h1
      rw [hm] at h2
      have e1 : n.replica = r1 := by simpa using h1
      have e2 : n.replica = r2 := by simpa using h2
      rw [← e1, e2]
  · intro h1
    unfold isLeader at h1
    cases hm : minSeqNode nodes with
    | none => rw [hm] at h1; simp at h1
    | some n =>
      rw [hm] at h1
      exact ⟨n, minSeqNode_mem hm, by simpa using h1, minSeqNode_min hm⟩
  · intro h
    simp [mergeSelectingTask, h]
  · simp [exitLeaderElection]
  · by_cases hs : s.sessionExpired = true
    · right
      simpa [exitLeaderElection] using hs
    · left
      simp [exitLeaderElection, hs]

/-- C8: the session/restart thread is never terminated by a partial
shutdown (the partial_shutdown_called signal stops exactly the other
background threads); it is terminated only by full table shutdown. -/
theorem restarting_thread_only_full_shutdown (running : List BgThread) :
    (BgThread.restarting ∈ running → BgThread.restarting ∈ partialShutdown running) ∧
    (∀ t ∈ partialShutdown running, t = BgThread.restarting) ∧
    (∀ t : BgThread, t ≠ BgThread.restarting → t ∉ partialShutdown running) ∧
    fullShutdown running = [] := by
  refine ⟨?_, ?_, ?_, rfl⟩
  · intro h
    apply List.mem_filter.mpr
    exact ⟨h, by simp [stoppedByPartialShutdown]⟩
  · intro t ht
    have h2 := (List.mem_filter.mp ht).2
    simpa [stoppedByPartialShutdown] using h2
  · intro t hne hmem
    have h2 := (List.mem_filter.mp hmem).2
    simp [stoppedByPartialShutdown] at h2
    exact hne h2

/-- C9: executing pullLogsToQueue a second time against an unchanged
shared-log state leaves the replica's queue state identical (a no-op), and
duplicates arising from a partial failure are detected by the sequential-name
key, so no log entry is ever mirrored into the queue twice. -/
theorem pullLogsToQueue_idempotent
    (log : List LogEntryType) (s : QueueState)
    (h : (s.queue.map Prod.fst).Nodup) :
    pullLogsToQueue log (pullLogsToQueue log s) = pullLogsToQueue log s ∧
    ((pullLogsToQueue log s).queue.map Prod.fst).Nodup := by
  have hmem : ∀ p ∈ log.enum, p.1 < log.length := by
    intro p hp
    have h1 := List.mem_map_of_mem Prod.fst hp
    rw [List.enum_map_fst] at h1
    exact List.mem_range.mp h1
  constructor
  · have hnil : ∀ q : List (Nat × LogEntryType),
        (log.enum.filter fun p =>
          decide (max s.logPointer log.length ≤ p.1) &&
            !(q.any fun x => x.1 == p.1)) = [] := by
      intro q
      apply List.filter_eq_nil_iff.mpr
      intro p hp
      have hlt := hmem p hp
      simp only [Bool.and_eq_true, decide_eq_true_eq]
      rintro ⟨hle, -⟩
      omega
    simp only [pullLogsToQueue]
    rw [hnil]
    simp only [List.append_nil, QueueState.mk.injEq, and_true]
    omega
  · simp only [pullLogsToQueue, List.map_append]
    apply List.Nodup.append h
    · have hsub : List.Sublist
          ((log.enum.filter fun p =>
            decide (s.logPointer ≤ p.1) && !(s.queue.any fun x => x.1 == p.1)).map
              Prod.fst)
          (log.enum.map Prod.fst) :=
        (List.filter_sublist _).map _
      rw [List.enum_map_fst] at hsub
      exact List.Nodup.sublist hsub (List.nodup_range _)
    · intro a ha1 ha2
      obtain ⟨p, hp, hpa⟩ := List.mem_map.mp ha2
      have hcond := (List.mem_filter.mp hp).2
      simp only [Bool.and_eq_true, Bool.not_eq_true'] at hcond
      obtain ⟨x, hx, hxa⟩ := List.mem_map.mp ha1
      have hany : (s.queue.any fun q => q.1 == p.1) = true :=
        List.any_eq_true.mpr ⟨x, hx, by rw [hxa, hpa]; exact beq_self_eq_true _⟩
      rw [hcond.2] at hany
      exact Bool.false_ne_true hany

/-- Witness for C9 at a concrete two-entry log. -/
theorem pullLogsToQueue_idempotent_witness :
    pullLogsToQueue [LogEntryType.GET, LogEntryType.MERGE]
        (pullLogsToQueue [LogEntryType.GET, LogEntryType.MERGE] ⟨0, []⟩) =
      pullLogsToQueue [LogEntryType.GET, LogEntryType.MERGE] ⟨0, []⟩ ∧
    ((pullLogsToQueue [LogEntryType.GET, LogEntryType.MERGE]
        (⟨0, []⟩ : QueueState)).queue.map Prod.fst).Nodup :=
  pullLogsToQueue_idempotent [LogEntryType.GET, LogEntryType.MERGE] ⟨0, []⟩ (by simp)

/-- Helper: the Euclidean remainder of a negative integer modulo 2 ^ w, as
a bit pattern (the two's complement of the magnitude). -/
theorem negSucc_emod_two_pow (m w : Nat) :
    (Int.negSucc m) % ((2 : Int) ^ w) = ((2 ^ w - 1 - m % 2 ^ w : Nat) : Int) := by
  have hL : 0 < 2 ^ w := Nat.pos_pow_of_pos w (by norm_num)
  have hmod : m % 2 ^ w < 2 ^ w := Nat.mod_lt _ hL
  have key : Int.negSucc m =
      ((2 ^ w - 1 - m % 2 ^ w : Nat) : Int) +
        ((2 : Int) ^ w) * (-((m / 2 ^ w : Nat) : Int) - 1) := by
    rw [Int.negSucc_eq]
    have hdm : 2 ^ w * (m / 2 ^ w) + m % 2 ^ w = m := Nat.div_add_mod m (2 ^ w)
    have hsub : ((2 ^ w - 1 - m % 2 ^ w : Nat) : Int) =
        (2 : Int) ^ w - 1 - ((m % 2 ^ w : Nat) : Int) := by
      have h1 : m % 2 ^ w ≤ 2 ^ w - 1 := by omega
      push_cast [Nat.sub_sub, Nat.cast_sub (by omega : 1 + m % 2 ^ w ≤ 2 ^ w)]
      ring
    rw [hsub]
    have : (m : Int) = (2 : Int) ^ w * ((m / 2 ^ w : Nat) : Int) + ((m % 2 ^ w : Nat) : Int) := by
      exact_mod_cast congrArg (fun n : Nat => (n : Int)) hdm.symm
    rw [this]
    ring
  rw [key, Int.add_mul_emod_self_left]
  apply Int.emod_eq_of_lt (Int.natCast_nonneg _)
  have h2 : 2 ^ w - 1 - m % 2 ^ w < 2 ^ w := by omega
  calc ((2 ^ w - 1 - m % 2 ^ w : Nat) : Int) < ((2 ^ w : Nat) : Int) := by exact_mod_cast h2
    _ = (2 : Int) ^ w := by push_cast; ring

/-- Helper: bit i of the pattern denoting x in type t is bit i of x's
two's complement for i below the width, and 0 at or above it. -/
theorem testBit_ofInt (t : CInt) (x : Int) (i : Nat) :
    (ofInt t x).testBit i = (decide (i < t.width) && x.testBit i) := by
  unfold ofInt
  cases x with
  | ofNat n =>
    have h1 : ((Int.ofNat n) % ((2 : Int) ^ t.width)) = ((n % 2 ^ t.width : Nat) : Int) := by
      have : (Int.ofNat n) = ((n : Nat) : Int) := rfl
      rw [this]
      have h2 : ((2 : Int) ^ t.width) = ((2 ^ t.width : Nat) : Int) := by push_cast; ring
      rw [h2, ← Int.ofNat_mod_ofNat]
    rw [h1, Int.toNat_natCast, Nat.testBit_mod_two_pow]
    rfl
  | negSucc m =>
    rw [negSucc_emod_two_pow, Int.toNat_natCast]
    have hL : 0 < 2 ^ t.width := Nat.pos_pow_of_pos _ (by norm_num)
    have hmod : m % 2 ^ t.width < 2 ^ t.width := Nat.mod_lt _ hL
    have h1 : 2 ^ t.width - 1 - m % 2 ^ t.width = 2 ^ t.width - (m % 2 ^ t.width + 1) := by
      omega
    rw [h1, Nat.testBit_two_pow_sub_succ hmod, Nat.testBit_mod_two_pow]
    have h2 : Int.testBit (Int.negSucc m) i = !(m.testBit i) := rfl
    rw [h2]
    cases h : decide (i < t.width) <;> simp

/-- Helper: converting an exclusive-or into a type equals the exclusive-or
of the conversions (conversion commutes with xor). -/
theorem ofInt_xor (t : CInt) (x y : Int) :
    ofInt t (Int.xor x y) = ofInt t x ^^^ ofInt t y := by
  apply Nat.eq_of_testBit_eq
  intro i
  rw [Nat.testBit_xor, testBit_ofInt, testBit_ofInt, testBit_ofInt, Int.testBit_lxor]
  cases h : decide (i < t.width) <;> simp

/-- Helper: casting a well-formed pattern to its own type is the
identity. -/
theorem staticCast_self (t : CInt) (a : Nat) (h : a < 2 ^ t.width) :
    staticCast t t a = a := by
  unfold staticCast ofInt toInt
  have hcast : ((2 : Int) ^ t.width) = ((2 ^ t.width : Nat) : Int) := by push_cast; ring
  by_cases hb : (t.signed && a.testBit (t.width - 1)) = true
  · rw [if_pos hb, Int.emod_sub_cancel,
      Int.emod_eq_of_lt (Int.natCast_nonneg _) (by rw [hcast]; exact_mod_cast h),
      Int.toNat_natCast]
  · rw [if_neg hb, Int.emod_eq_of_lt (Int.natCast_nonneg _) (by rw [hcast]; exact_mod_cast h),
      Int.toNat_natCast]


/-- C10: BitXorImpl::apply(a, b) equals the bitwise exclusive-or of the
integers a and b denote, converted to the result type; consequently apply is
commutative (and ResultOfBit symmetric), self-inverse (apply(a, a) = 0), and
satisfies the round-trip apply(apply(a, b), b) = a when a and b have the same
type. -/
theorem bitXorImpl_apply_correct (ta tb tr t : CInt) (a b x y : Nat)
    (hx : x < 2 ^ t.width) (hy : y < 2 ^ t.width) :
    BitXorImpl.apply ta tb tr a b = ofInt tr (Int.xor (toInt ta a) (toInt tb b)) ∧
    BitXorImpl.apply ta tb tr a b = BitXorImpl.apply tb ta tr b a ∧
    NumberTraits.ResultOfBit ta tb = NumberTraits.ResultOfBit tb ta ∧
    BitXorImpl.apply t t (NumberTraits.ResultOfBit t t) x x = 0 ∧
    BitXorImpl.apply t t (NumberTraits.ResultOfBit t t)
      (BitXorImpl.apply t t (NumberTraits.ResultOfBit t t) x y) y = x := by
  have hRtt : NumberTraits.ResultOfBit t t = t := by
    cases t with
    | mk w s => simp [NumberTraits.ResultOfBit]
  refine ⟨?_, ?_, ?_, ?_, ?_⟩
  · rw [ofInt_xor]; rfl
  · unfold BitXorImpl.apply; exact Nat.xor_comm _ _
  · unfold NumberTraits.ResultOfBit; simp [Nat.max_comm, Bool.or_comm]
  · rw [hRtt]; unfold BitXorImpl.apply; exact Nat.xor_self _
  · rw [hRtt]
    unfold BitXorImpl.apply
    rw [staticCast_self t x hx, staticCast_self t y hy,
        staticCast_self t _ (Nat.xor_lt_two_pow hx hy),
        Nat.xor_assoc, Nat.xor_self, Nat.xor_zero]

/-- Witness for C10 at concrete 8- and 32-bit types and values. -/
theorem bitXorImpl_apply_correct_witness :
    BitXorImpl.apply ⟨8, false⟩ ⟨32, true⟩ ⟨32, true⟩ 200 5 =
      ofInt ⟨32, true⟩ (Int.xor (toInt ⟨8, false⟩ 200) (toInt ⟨32, true⟩ 5)) ∧
    BitXorImpl.apply ⟨8, false⟩ ⟨32, true⟩ ⟨32, true⟩ 200 5 =
      BitXorImpl.apply ⟨32, true⟩ ⟨8, false⟩ ⟨32, true⟩ 5 200 ∧
    NumberTraits.ResultOfBit ⟨8, false⟩ ⟨32, true⟩ =
      NumberTraits.ResultOfBit ⟨32, true⟩ ⟨8, false⟩ ∧
    BitXorImpl.apply ⟨8, true⟩ ⟨8, true⟩ (NumberTraits.ResultOfBit ⟨8, true⟩ ⟨8, true⟩) 200 200 = 0 ∧
    BitXorImpl.apply ⟨8, true⟩ ⟨8, true⟩ (NumberTraits.ResultOfBit ⟨8, true⟩ ⟨8, true⟩)
      (BitXorImpl.apply ⟨8, true⟩ ⟨8, true⟩ (NumberTraits.ResultOfBit ⟨8, true⟩ ⟨8, true⟩) 200 77) 77 = 200 :=
  bitXorImpl_apply_correct ⟨8, false⟩ ⟨32, true⟩ ⟨32, true⟩ ⟨8, true⟩ 200 5 200 77
    (by decide) (by decide)

end DB
